import Mathlib

/-!
# Verification of the render-graph lifecycle of `pong-rs` (`src/main.rs`)

Shallow embedding of the `ExampleGraph` component of `src/main.rs`:
the debounced rebuild decision (`ExampleGraph::rebuild`), the render-graph
construction (`ExampleGraph::builder`), and the task registrations of `main`.

Screen dimensions are modelled as pairs of naturals (the spec's positive
integers); the debounce logic only uses equality on them, so nothing is lost.
Clear values use `ℚ` for the float constants `0.0` and `1.0` of the source,
which are exact. The rendering backend (`Factory`) only contributes the
surface format to the graph, so the builder takes that format as a parameter.
-/

set_option autoImplicit false

namespace PongRs

/-- `amethyst::window::ScreenDimensions`, reduced to the width/height pair the
source compares and stores. -/
structure ScreenDimensions where
  width : Nat
  height : Nat
deriving DecidableEq

/-- The `ExampleGraph` struct of `src/main.rs` (lines 71–75): the last observed
dimensions (`None` until a sample is recorded) and the dirty flag. -/
structure ExampleGraph where
  dimensions : Option ScreenDimensions
  dirty : Bool
deriving DecidableEq

/-- `#[derive(Default)]`: `Option::default()` is `None`, `bool::default()` is
`false`. -/
def ExampleGraph.default : ExampleGraph :=
  { dimensions := none, dirty := false }

/-- `ExampleGraph::rebuild` (lines 81–91). The input is the value of
`res.try_fetch::<ScreenDimensions>()`, i.e. the current sample, possibly
absent. Returns the reported boolean together with the updated state:

```rust
if self.dimensions.as_ref() != new_dimensions.as_ref().map(|d| d.deref()) {
    self.dirty = true;
    self.dimensions = new_dimensions.map(|d| d.clone());
    return false;
}
return self.dirty;
```
-/
def ExampleGraph.rebuild (g : ExampleGraph) (new_dimensions : Option ScreenDimensions) :
    Bool × ExampleGraph :=
  if g.dimensions ≠ new_dimensions then
    (false, { g with dirty := true, dimensions := new_dimensions })
  else
    (g.dirty, g)

/-- Feed a list of dimension samples to `rebuild` one per frame, collecting the
returned booleans (the pure poll semantics, no graph construction between
polls). -/
def pollSeq (g : ExampleGraph) : List (Option ScreenDimensions) → List Bool
  | [] => []
  | d :: ds =>
    let r := g.rebuild d
    r.1 :: pollSeq r.2 ds

theorem rebuild_changed (g : ExampleGraph) (d : Option ScreenDimensions)
    (h : g.dimensions ≠ d) :
    g.rebuild d = (false, { g with dirty := true, dimensions := d }) := by
  simp [ExampleGraph.rebuild, h]

theorem rebuild_unchanged (g : ExampleGraph) (d : Option ScreenDimensions)
    (h : g.dimensions = d) :
    g.rebuild d = (g.dirty, g) := by
  simp [ExampleGraph.rebuild, h]

theorem rebuild_dimensions (g : ExampleGraph) (d : Option ScreenDimensions) :
    (g.rebuild d).2.dimensions = d := by
  by_cases h : g.dimensions = d
  · simp [rebuild_unchanged g d h, h]
  · simp [rebuild_changed g d h]

/-- Helper for the thrash case: if the samples form a chain in which each
sample differs from the stored dimensions it meets, every poll returns
`false`, whatever the dirty flag is. -/
theorem pollSeq_chain_ne (x : Option ScreenDimensions) (b : Bool)
    (ds : List (Option ScreenDimensions)) (h : List.Chain (· ≠ ·) x ds) :
    pollSeq ⟨x, b⟩ ds = List.replicate ds.length false := by
  induction ds generalizing x b with
  | nil => rfl
  | cons e tl ih =>
    rw [List.chain_cons] at h
    obtain ⟨hxe, htl⟩ := h
    simp only [pollSeq, rebuild_changed ⟨x, b⟩ e hxe]
    simpa [List.replicate] using ih e true htl

/-! ## The render-graph construction (`ExampleGraph::builder`, lines 95–149)

The rendy graph-building API surface used by the source, embedded as plain
data: `create_image` appends an image description and returns its handle,
`add_node` appends a node and returns its handle. -/

/-- The image kinds used: `Kind::D2(width, height, layers, samples)`. -/
inductive Kind where
  | D2 (width height layers samples : Nat)
deriving DecidableEq

/-- Pixel formats: the fixed `Format::D32Sfloat` of the depth image, plus
whatever format `factory.get_surface_format(&surface)` reports (abstracted by
an index into the backend's format enumeration). -/
inductive Format where
  | D32Sfloat
  | native (code : Nat)
deriving DecidableEq

/-- `ClearValue`: either `Color([r, g, b, a])` or
`DepthStencil(ClearDepthStencil(depth, stencil))`. The float components are
modelled exactly in `ℚ`. -/
inductive ClearValue where
  | color (r g b a : ℚ)
  | depthStencil (depth : ℚ) (stencil : Nat)
deriving DecidableEq

/-- An image declared on the graph via `create_image(kind, levels, format,
clear)`. -/
structure ImageDesc where
  kind : Kind
  levels : Nat
  format : Format
  clear : Option ClearValue
deriving DecidableEq

/-- The two draw-group descriptions the pass installs, in source order:
`DrawFlat2DDesc` (sprites) and `DrawUiDesc` (UI). -/
inductive DrawGroup where
  | flat2D
  | ui
deriving DecidableEq

/-- The subpass assembled by `SubpassBuilder::new().with_group(..)...`:
ordered draw groups, attached color images, optional depth-stencil image.
Image handles are indices into the builder's image list. -/
structure Subpass where
  groups : List DrawGroup
  colors : List Nat
  depth_stencil : Option Nat
deriving DecidableEq

/-- A node added to the graph: the combined render pass, or
`PresentNode::builder(factory, surface, image).with_dependency(..)`, which
consumes `image` and lists the node handles it must run after. -/
inductive Node where
  | pass (sub : Subpass)
  | present (image : Nat) (deps : List Nat)
deriving DecidableEq

/-- `GraphBuilder::new()` accumulates images and nodes; handles are positions
in these lists. -/
structure GraphBuilder where
  images : List ImageDesc
  nodes : List Node
deriving DecidableEq

def GraphBuilder.new : GraphBuilder := { images := [], nodes := [] }

/-- `graph_builder.create_image(kind, levels, format, clear)`: returns the
handle of the new image and the extended builder. -/
def GraphBuilder.create_image (g : GraphBuilder) (kind : Kind) (levels : Nat)
    (format : Format) (clear : Option ClearValue) : Nat × GraphBuilder :=
  (g.images.length, { g with images := g.images ++ [⟨kind, levels, format, clear⟩] })

/-- `graph_builder.add_node(node)`: returns the handle of the new node and the
extended builder. -/
def GraphBuilder.add_node (g : GraphBuilder) (node : Node) : Nat × GraphBuilder :=
  (g.nodes.length, { g with nodes := g.nodes ++ [node] })

/-- `ExampleGraph::builder` (lines 95–149). The factory's only contribution to
the built graph is the surface format, passed in as `surface_format`; the
window handle and surface object carry no graph-visible data. Returns `none`
where the source panics (`self.dimensions.as_ref().unwrap()` on an absent
value); otherwise the built `GraphBuilder` together with the mutated
`ExampleGraph` state (`self.dirty = false`). -/
def ExampleGraph.builder (g : ExampleGraph) (surface_format : Format) :
    Option (GraphBuilder × ExampleGraph) :=
  let g := { g with dirty := false }
  match g.dimensions with
  | none => none
  | some dimensions =>
    let window_kind := Kind.D2 dimensions.width dimensions.height 1 1
    let gb := GraphBuilder.new
    let (color, gb) := gb.create_image window_kind 1 surface_format
      (some (ClearValue.color 0 0 0 1))
    let (depth, gb) := gb.create_image window_kind 1 Format.D32Sfloat
      (some (ClearValue.depthStencil 1 0))
    let (pass, gb) := gb.add_node
      (Node.pass { groups := [DrawGroup.flat2D, DrawGroup.ui],
                   colors := [color], depth_stencil := some depth })
    let (_present, gb) := gb.add_node (Node.present color [pass])
    some (gb, g)

/-- One frame of the `RenderingSystem` lifecycle around the `GraphCreator`:
poll `rebuild` with the frame's sample, and when it reports `true` run
`builder` to construct the new graph (clearing the dirty flag). Returns the
rebuild decision and the post-frame tracker state, or `none` if the builder
panicked. -/
def runFrame (g : ExampleGraph) (d : Option ScreenDimensions)
    (surface_format : Format) : Option (Bool × ExampleGraph) :=
  let r := g.rebuild d
  if r.1 then (r.2.builder surface_format).map fun p => (true, p.2)
  else some (false, r.2)

/-- Iterated frames: one sample per frame, collecting the rebuild decisions;
`none` as soon as one frame panics. -/
def runFrames (g : ExampleGraph) (surface_format : Format) :
    List (Option ScreenDimensions) → Option (List Bool)
  | [] => some []
  | d :: ds =>
    match runFrame g d surface_format with
    | none => none
    | some (b, g1) => (runFrames g1 surface_format ds).map fun bs => b :: bs

theorem builder_some (d : ScreenDimensions) (b : Bool) (fmt : Format) :
    ExampleGraph.builder ⟨some d, b⟩ fmt =
      some (⟨[⟨Kind.D2 d.width d.height 1 1, 1, fmt, some (ClearValue.color 0 0 0 1)⟩,
              ⟨Kind.D2 d.width d.height 1 1, 1, Format.D32Sfloat,
               some (ClearValue.depthStencil 1 0)⟩],
             [Node.pass ⟨[DrawGroup.flat2D, DrawGroup.ui], [0], some 1⟩,
              Node.present 0 [0]]⟩,
            ⟨some d, false⟩) := rfl

theorem builder_state (g : ExampleGraph) (fmt : Format) (out : GraphBuilder × ExampleGraph)
    (h : g.builder fmt = some out) :
    out.2.dirty = false ∧ out.2.dimensions = g.dimensions := by
  match hd : g.dimensions with
  | none => simp [ExampleGraph.builder, hd] at h
  | some d =>
    have hg : g = ⟨some d, g.dirty⟩ := by cases g; simp_all
    rw [hg, builder_some d g.dirty fmt] at h
    cases h
    simp [hd]

theorem runFrame_stable (x : Option ScreenDimensions) (fmt : Format) :
    runFrame ⟨x, false⟩ x fmt = some (false, ⟨x, false⟩) := by
  simp [runFrame, rebuild_unchanged ⟨x, false⟩ x rfl]

theorem runFrames_constant_stable (x : Option ScreenDimensions) (fmt : Format) (n : Nat) :
    runFrames ⟨x, false⟩ fmt (List.replicate n x) = some (List.replicate n false) := by
  induction n with
  | zero => rfl
  | succ n ih => simp [List.replicate_succ, runFrames, runFrame_stable, ih]

theorem runFrames_change_then_stable (x : Option ScreenDimensions) (d : ScreenDimensions)
    (fmt : Format) (hx : x ≠ some d) (n : Nat) :
    runFrames ⟨x, false⟩ fmt (List.replicate (n + 2) (some d)) =
      some (false :: true :: List.replicate n false) := by
  have h1 : runFrame ⟨x, false⟩ (some d) fmt = some (false, ⟨some d, true⟩) := by
    simp [runFrame, rebuild_changed ⟨x, false⟩ (some d) hx]
  have h2 : runFrame ⟨some d, true⟩ (some d) fmt = some (true, ⟨some d, false⟩) := by
    simp [runFrame, rebuild_unchanged ⟨some d, true⟩ (some d) rfl, builder_some]
  have hrep : List.replicate (n + 2) (some d) =
      some d :: some d :: List.replicate n (some d) := by
    simp [List.replicate_succ]
  rw [hrep]
  simp [runFrames, h1, h2, runFrames_constant_stable (some d) fmt n]

/-! ## The claims -/

/-- C1 fails as stated: with the tracker stabilized at 800×600, three polls
at 640×480 answer `false, true, true` — the poll that answered `true` did not
clear `dirty`, and the next poll with unchanged dimensions answers `true`
again rather than `false`. -/
theorem rebuild_does_not_clear_dirty :
    pollSeq ⟨some ⟨800, 600⟩, false⟩ (List.replicate 3 (some ⟨640, 480⟩)) =
      [false, true, true] ∧
    (((⟨some ⟨800, 600⟩, false⟩ : ExampleGraph).rebuild (some ⟨640, 480⟩)).2.rebuild
        (some ⟨640, 480⟩)).2.dirty = true := by decide

/-- C1 (amended): when the sampled dimensions equal the last-observed ones,
`rebuild` returns the current `dirty` and leaves the whole state — `dirty`
included — unchanged; `dirty` is instead cleared by the graph construction the
renderer invokes whenever the poll answers `true`. In that combined lifecycle,
for `d0 ≠ d1`, the polls on `d1, d1, d1, ...` answer `false`, then `true`
exactly once, then `false` until the dimensions change again. -/
theorem rebuild_debounce_lifecycle (d0 d1 : ScreenDimensions) (fmt : Format)
    (h : d0 ≠ d1) (n : Nat) :
    (∀ g : ExampleGraph, g.rebuild g.dimensions = (g.dirty, g)) ∧
    runFrames ⟨some d0, false⟩ fmt (List.replicate (n + 2) (some d1)) =
      some (false :: true :: List.replicate n false) := by
  refine ⟨fun g => rebuild_unchanged g g.dimensions rfl, ?_⟩
  exact runFrames_change_then_stable (some d0) d1 fmt (by simpa using h) n

theorem rebuild_debounce_lifecycle_witness :
    ((⟨800, 600⟩ : ScreenDimensions) ≠ ⟨640, 480⟩) ∧
    ((∀ g : ExampleGraph, g.rebuild g.dimensions = (g.dirty, g)) ∧
      runFrames ⟨some ⟨800, 600⟩, false⟩ (Format.native 0)
        (List.replicate 3 (some ⟨640, 480⟩)) =
        some (false :: true :: List.replicate 1 false)) :=
  ⟨by decide, rebuild_debounce_lifecycle ⟨800, 600⟩ ⟨640, 480⟩ (Format.native 0) (by decide) 1⟩

/-- C2: the code evaluated at the failing sample sequence
`[some 800×600, absent, absent]` from the initial state: the third (absent)
poll answers `true` — a rebuild is signaled while the dimensions are absent —
and the combined lifecycle then fails because `builder` unwraps the absent
dimensions. -/
theorem absent_dimensions_crash :
    pollSeq ExampleGraph.default [some ⟨800, 600⟩, none, none] = [false, false, true] ∧
    ExampleGraph.builder ⟨none, true⟩ (Format.native 0) = none ∧
    runFrames ExampleGraph.default (Format.native 0) [some ⟨800, 600⟩, none, none] =
      none := by decide

/-- C3 fails as stated: from the initial state, the second poll of a constant
present sequence answers `true`, not `false`. -/
theorem constant_present_sequence_rebuilds :
    pollSeq ExampleGraph.default (List.replicate 2 (some ⟨800, 600⟩)) =
      [false, true] := by decide

/-- C3 (amended): from the initial state a constant absent sequence never
signals a rebuild; a constant present sequence answers `false` on the first
call and `true` on the second — the initial build, the present sample
differing from the initially absent record — and, once the builder has run,
`false` on every later call. -/
theorem constant_sequence_initial_build (d : ScreenDimensions) (fmt : Format) (n : Nat) :
    runFrames ExampleGraph.default fmt (List.replicate n none) =
      some (List.replicate n false) ∧
    runFrames ExampleGraph.default fmt (List.replicate (n + 2) (some d)) =
      some (false :: true :: List.replicate n false) := by
  exact ⟨runFrames_constant_stable none fmt n,
    runFrames_change_then_stable none d fmt (by simp) n⟩

/-- C4: when every sample differs from the one before it, every poll from the
initial state answers `false` — no rebuild mid-thrash. -/
theorem thrash_never_rebuilds (ds : List (Option ScreenDimensions))
    (h : List.Chain' (· ≠ ·) ds) :
    pollSeq ExampleGraph.default ds = List.replicate ds.length false := by
  match ds with
  | [] => rfl
  | d :: tl =>
    have h' : List.Chain (· ≠ ·) d tl := h
    by_cases hd : (none : Option ScreenDimensions) = d
    · have : ExampleGraph.default.rebuild d = (false, ExampleGraph.default) :=
        rebuild_unchanged ExampleGraph.default d hd
      simp only [pollSeq, this, List.length_cons, List.replicate_succ]
      subst hd
      simpa using pollSeq_chain_ne none false tl h'
    · have : ExampleGraph.default.rebuild d =
          (false, { dirty := true, dimensions := d }) :=
        rebuild_changed ExampleGraph.default d hd
      simp only [pollSeq, this, List.length_cons, List.replicate_succ]
      simpa using pollSeq_chain_ne d true tl h'

theorem thrash_never_rebuilds_witness :
    List.Chain' (· ≠ ·)
      [some (⟨800, 600⟩ : ScreenDimensions), some ⟨640, 480⟩, none] ∧
    pollSeq ExampleGraph.default [some ⟨800, 600⟩, some ⟨640, 480⟩, none] =
      List.replicate 3 false := by
  have hc : List.Chain' (· ≠ ·)
      [some (⟨800, 600⟩ : ScreenDimensions), some ⟨640, 480⟩, none] := by
    refine List.chain'_cons.mpr ⟨?_, List.chain'_cons.mpr ⟨?_, List.chain'_singleton _⟩⟩ <;>
      simp [ScreenDimensions.mk.injEq]
  exact ⟨hc, thrash_never_rebuilds [some ⟨800, 600⟩, some ⟨640, 480⟩, none] hc⟩

/-- C5 fails as stated: graph construction also mutates the state — starting
from `dirty = true`, running `builder` leaves `dirty = false`. -/
theorem builder_mutates_dirty :
    (ExampleGraph.builder ⟨some ⟨800, 600⟩, true⟩ (Format.native 0)).map
        (fun out => out.2.dirty) = some false := by decide

/-- C5 (amended): the state is initialized to `{none, false}`;
`lastObservedDimensions` is mutated only by the poll, while the `dirty` flag
is set by the poll and additionally cleared (set to `false`) by graph
construction, which never changes the stored dimensions. -/
theorem rebuild_state_lifecycle :
    ExampleGraph.default = ⟨none, false⟩ ∧
    (∀ (g : ExampleGraph) (fmt : Format) (out : GraphBuilder × ExampleGraph),
        g.builder fmt = some out →
          out.2.dimensions = g.dimensions ∧ out.2.dirty = false) := by
  refine ⟨rfl, fun g fmt out h => ?_⟩
  have hb := builder_state g fmt out h
  exact ⟨hb.2, hb.1⟩

theorem rebuild_state_lifecycle_witness :
    ((⟨some ⟨800, 600⟩, false⟩ : ExampleGraph).dimensions =
        (⟨some ⟨800, 600⟩, true⟩ : ExampleGraph).dimensions) ∧
    (⟨some (⟨800, 600⟩ : ScreenDimensions), false⟩ : ExampleGraph).dirty = false :=
  rebuild_state_lifecycle.2 ⟨some ⟨800, 600⟩, true⟩ (Format.native 0)
    (⟨[⟨Kind.D2 800 600 1 1, 1, Format.native 0, some (ClearValue.color 0 0 0 1)⟩,
       ⟨Kind.D2 800 600 1 1, 1, Format.D32Sfloat, some (ClearValue.depthStencil 1 0)⟩],
      [Node.pass ⟨[DrawGroup.flat2D, DrawGroup.ui], [0], some 1⟩, Node.present 0 [0]]⟩,
     ⟨some ⟨800, 600⟩, false⟩) rfl

/-- C8: every call to `rebuild` leaves `lastObservedDimensions` equal to the
sample of that call, so a second call with an equal sample always takes the
unchanged branch (it returns the current `dirty` and leaves the state as it
was). -/
theorem rebuild_records_sample (g : ExampleGraph) (d : Option ScreenDimensions) :
    (g.rebuild d).2.dimensions = d ∧
    (g.rebuild d).2.rebuild d = ((g.rebuild d).2.dirty, (g.rebuild d).2) :=
  ⟨rebuild_dimensions g d, rebuild_unchanged (g.rebuild d).2 d (rebuild_dimensions g d)⟩

/-- C9: graph construction clears the dirty flag and keeps the stored
dimensions; hence whenever a frame actually rebuilt, the poll of that frame
had reported `true` while leaving `dirty` set, and every further frame with
the same sample answers `false` — at most one build per observed size
change. -/
theorem build_clears_dirty_once (g : ExampleGraph) (d : Option ScreenDimensions)
    (fmt : Format) (g' : ExampleGraph)
    (h : runFrame g d fmt = some (true, g')) (n : Nat) :
    (∀ (g0 : ExampleGraph) (out : GraphBuilder × ExampleGraph),
        g0.builder fmt = some out →
          out.2.dirty = false ∧ out.2.dimensions = g0.dimensions) ∧
    (g.rebuild d).1 = true ∧ (g.rebuild d).2.dirty = true ∧
    runFrames g' fmt (List.replicate n d) = some (List.replicate n false) := by
  refine ⟨fun g0 out h0 => builder_state g0 fmt out h0, ?_⟩
  by_cases hdim : g.dimensions = d
  · have hr : g.rebuild d = (g.dirty, g) := rebuild_unchanged g d hdim
    simp only [runFrame, hr] at h
    by_cases hdirty : g.dirty
    · simp only [hdirty, if_true] at h
      obtain ⟨out, hout, hout2⟩ := Option.map_eq_some'.mp h
      have hb := builder_state g fmt out hout
      have h2 : out.2 = g' := by simpa using hout2
      have hdirty' : g'.dirty = false := h2 ▸ hb.1
      have hdims' : g'.dimensions = d := by rw [← h2, hb.2, hdim]
      have hg' : g' = ⟨d, false⟩ := by
        cases g'
        simp_all
      refine ⟨by simp [hr, hdirty], by simp [hr, hdirty], ?_⟩
      rw [hg']
      exact runFrames_constant_stable d fmt n
    · simp [hdirty] at h
  · have hr : g.rebuild d = (false, { g with dirty := true, dimensions := d }) :=
      rebuild_changed g d hdim
    simp [runFrame, hr] at h

theorem build_clears_dirty_once_witness :
    ((⟨some ⟨800, 600⟩, true⟩ : ExampleGraph).rebuild (some ⟨800, 600⟩)).1 = true ∧
    runFrames ⟨some ⟨800, 600⟩, false⟩ (Format.native 0)
        (List.replicate 2 (some ⟨800, 600⟩)) = some (List.replicate 2 false) :=
  let t := build_clears_dirty_once ⟨some ⟨800, 600⟩, true⟩ (some ⟨800, 600⟩)
    (Format.native 0) ⟨some ⟨800, 600⟩, false⟩ (by decide) 2
  ⟨t.2.1, t.2.2.2⟩

/-! ## Graph-shape observations for the builder claims -/

def Node.isPass : Node → Bool
  | .pass _ => true
  | .present _ _ => false

def Node.isPresent : Node → Bool
  | .pass _ => false
  | .present _ _ => true

/-- The node handles a node declares it must run after. -/
def Node.dependencies : Node → List Nat
  | .pass _ => []
  | .present _ ds => ds

/-- Dependency edges of the graph: `(i, j)` when node `j` runs after node
`i`. -/
def GraphBuilder.edges (g : GraphBuilder) : List (Nat × Nat) :=
  g.nodes.enum.flatMap fun p => p.2.dependencies.map fun i => (i, p.1)

/-- A sink of the graph: a valid node handle no other node runs after. -/
def GraphBuilder.IsSink (g : GraphBuilder) (i : Nat) : Prop :=
  i < g.nodes.length ∧ ∀ e ∈ g.edges, e.1 ≠ i

theorem edges_pass_present (imgs : List ImageDesc) :
    (GraphBuilder.mk imgs
        [Node.pass ⟨[DrawGroup.flat2D, DrawGroup.ui], [0], some 1⟩,
         Node.present 0 [0]]).edges = [(0, 1)] := rfl

def ImageDesc.colorCleared (img : ImageDesc) : Bool :=
  match img.clear with
  | some (ClearValue.color _ _ _ _) => true
  | _ => false

def ImageDesc.depthCleared (img : ImageDesc) : Bool :=
  match img.clear with
  | some (ClearValue.depthStencil _ _) => true
  | _ => false

/-- C6: for every dimensions value, the built graph declares two images and
exactly one pass node — attaching the color image (handle 0) and the depth
image (handle 1), with the draw groups ordered sprites first, UI second — and
exactly one present node, consuming the color image with the pass as its only
dependency; every dependency edge points forward, so the graph is a DAG, and
the present node is its unique sink. -/
theorem built_graph_shape (w h : Nat) (b : Bool) (fmt : Format)
    (gb : GraphBuilder) (g' : ExampleGraph)
    (hout : ExampleGraph.builder ⟨some ⟨w, h⟩, b⟩ fmt = some (gb, g')) :
    gb.images.length = 2 ∧
    gb.nodes.countP Node.isPass = 1 ∧
    gb.nodes.countP Node.isPresent = 1 ∧
    gb.nodes[0]? = some (Node.pass ⟨[DrawGroup.flat2D, DrawGroup.ui], [0], some 1⟩) ∧
    gb.nodes[1]? = some (Node.present 0 [0]) ∧
    gb.edges = [(0, 1)] ∧
    (∀ e ∈ gb.edges, e.1 < e.2) ∧
    gb.IsSink 1 ∧
    (∀ i, gb.IsSink i → i = 1) := by
  rw [builder_some] at hout
  have hgb : gb = ⟨[⟨Kind.D2 w h 1 1, 1, fmt, some (ClearValue.color 0 0 0 1)⟩,
      ⟨Kind.D2 w h 1 1, 1, Format.D32Sfloat, some (ClearValue.depthStencil 1 0)⟩],
      [Node.pass ⟨[DrawGroup.flat2D, DrawGroup.ui], [0], some 1⟩,
       Node.present 0 [0]]⟩ := by
    have := congrArg (fun o => Option.map Prod.fst o) hout
    simpa using this.symm
  subst hgb
  refine ⟨rfl, rfl, rfl, rfl, rfl, rfl, ?_, ?_, ?_⟩
  · intro e he
    rw [edges_pass_present] at he
    simp at he
    subst he
    decide
  · refine ⟨by show (1 : Nat) < 2; decide, ?_⟩
    intro e he
    rw [edges_pass_present] at he
    simp at he
    subst he
    decide
  · intro i hi
    obtain ⟨hlen, hemem⟩ := hi
    have h0 := hemem (0, 1) (by rw [edges_pass_present]; simp)
    have h0' : (0 : Nat) ≠ i := h0
    have hlen' : i < 2 := hlen
    omega

theorem built_graph_shape_witness :
    (⟨[⟨Kind.D2 800 600 1 1, 1, Format.native 0, some (ClearValue.color 0 0 0 1)⟩,
       ⟨Kind.D2 800 600 1 1, 1, Format.D32Sfloat, some (ClearValue.depthStencil 1 0)⟩],
      [Node.pass ⟨[DrawGroup.flat2D, DrawGroup.ui], [0], some 1⟩,
       Node.present 0 [0]]⟩ : GraphBuilder).images.length = 2 :=
  (built_graph_shape 800 600 false (Format.native 0) _ ⟨some ⟨800, 600⟩, false⟩ rfl).1

/-- C7: for every dimensions value, the built graph declares exactly one
color-cleared image — 2-D, sized to the dimensions with depth 1, in the
surface format, cleared to the black background `[0, 0, 0, 1]` — and exactly
one depth-cleared image of the same footprint in the fixed `D32Sfloat`
format, cleared to the far value `1.0` with stencil `0`. -/
theorem built_graph_images (w h : Nat) (b : Bool) (fmt : Format) :
    (ExampleGraph.builder ⟨some ⟨w, h⟩, b⟩ fmt).map (fun out => out.1.images) =
      some [⟨Kind.D2 w h 1 1, 1, fmt, some (ClearValue.color 0 0 0 1)⟩,
            ⟨Kind.D2 w h 1 1, 1, Format.D32Sfloat,
             some (ClearValue.depthStencil 1 0)⟩] ∧
    (ExampleGraph.builder ⟨some ⟨w, h⟩, b⟩ fmt).map
        (fun out => out.1.images.countP ImageDesc.colorCleared) = some 1 ∧
    (ExampleGraph.builder ⟨some ⟨w, h⟩, b⟩ fmt).map
        (fun out => out.1.images.countP ImageDesc.depthCleared) = some 1 := by
  refine ⟨?_, ?_, ?_⟩ <;> rw [builder_some] <;> rfl

/-! ## Task registration and the frame schedule -/

/-- A per-frame system registration: one `with(system, name, dependencies)`
call of `main` (lines 26–53). -/
structure SystemReg where
  name : String
  dependencies : List String
deriving DecidableEq

/-- The per-frame systems registered by `main`: `input_system` comes from the
`InputBundle`, the five explicit `with` calls follow in source order. -/
def registeredSystems : List SystemReg :=
  [⟨"input_system", []⟩,
   ⟨"sprite_sheet_processor", []⟩,
   ⟨"paddle_system", ["input_system"]⟩,
   ⟨"ball_system", []⟩,
   ⟨"collision_system", ["paddle_system", "ball_system"]⟩,
   ⟨"winner_system", ["ball_system"]⟩]

/-- The single `with_thread_local` registration of `main` (line 56): the
rendering system. -/
def threadLocalSystems : List String := ["rendering_system"]

/-- Modelled from the spec: the Frame Clock / Scheduler of §4.1 lives in the
`amethyst` dependency, not in this repository's source. Kahn-style rounds:
each round completes every pending task whose declared dependencies have all
completed; `none` when a cycle or an unknown dependency name blocks
progress. -/
def scheduleRounds (fuel : Nat) (done : List String) (pending : List SystemReg) :
    Option (List String) :=
  match fuel with
  | 0 => if pending.isEmpty then some done else none
  | fuel + 1 =>
    if pending.isEmpty then some done
    else
      match pending.filter (fun t => t.dependencies.all done.contains) with
      | [] => none
      | ready =>
        scheduleRounds fuel (done ++ ready.map SystemReg.name)
          (pending.filter fun t => !t.dependencies.all done.contains)

/-- Modelled from the spec: the execution order the scheduler resolves at
startup from the declared dependencies. -/
def executionOrder : Option (List String) :=
  scheduleRounds registeredSystems.length [] registeredSystems

/-- Modelled from the spec (§4.1, §5): one frame's execution trace as
`(task, execution context)` pairs in completion order. Non-pinned tasks run
on the pool workers `1, 2, 3` — the assignment varies from frame to frame —
and the thread-pinned rendering task runs last, always on the reserved
context `0`. -/
def frameTrace (frame : Nat) : Option (List (String × Nat)) :=
  executionOrder.map fun order =>
    (order.enum.map fun p => (p.2, 1 + (p.1 + frame) % 3)) ++
      threadLocalSystems.map fun n => (n, 0)

/-- C10: the rendering task is the single thread-pinned registration; every
frame's trace lists all six other declared tasks and then the rendering task
last — strictly after every other task — and the rendering task always runs
on the reserved context `0`, which no other task ever uses. -/
theorem render_task_pinned_last :
    threadLocalSystems = ["rendering_system"] ∧
    ∀ frame : Nat,
      (frameTrace frame).map (fun tr => tr.map Prod.fst) =
        some ["input_system", "sprite_sheet_processor", "ball_system",
              "paddle_system", "winner_system", "collision_system",
              "rendering_system"] ∧
      (frameTrace frame).map (fun tr => tr.getLast?) =
        some (some ("rendering_system", 0)) ∧
      ∀ tr, frameTrace frame = some tr →
        ∀ p ∈ tr, p.1 ≠ "rendering_system" → p.2 ≠ 0 := by
  refine ⟨rfl, fun frame => ⟨rfl, rfl, ?_⟩⟩
  intro tr htr p hp hne
  have hL : frameTrace frame = some
      [("input_system", 1 + (0 + frame) % 3),
       ("sprite_sheet_processor", 1 + (1 + frame) % 3),
       ("ball_system", 1 + (2 + frame) % 3),
       ("paddle_system", 1 + (3 + frame) % 3),
       ("winner_system", 1 + (4 + frame) % 3),
       ("collision_system", 1 + (5 + frame) % 3),
       ("rendering_system", 0)] := rfl
  rw [hL] at htr
  injection htr with htr
  subst htr
  simp only [List.mem_cons, List.not_mem_nil, or_false] at hp
  rcases hp with rfl | rfl | rfl | rfl | rfl | rfl | rfl
  · show 1 + (0 + frame) % 3 ≠ 0; omega
  · show 1 + (1 + frame) % 3 ≠ 0; omega
  · show 1 + (2 + frame) % 3 ≠ 0; omega
  · show 1 + (3 + frame) % 3 ≠ 0; omega
  · show 1 + (4 + frame) % 3 ≠ 0; omega
  · show 1 + (5 + frame) % 3 ≠ 0; omega
  · exact absurd rfl hne

theorem render_task_pinned_last_witness :
    ("input_system", 1 + (0 + 0) % 3).2 ≠ 0 :=
  (render_task_pinned_last.2 0).2.2
    [("input_system", 1 + (0 + 0) % 3),
     ("sprite_sheet_processor", 1 + (1 + 0) % 3),
     ("ball_system", 1 + (2 + 0) % 3),
     ("paddle_system", 1 + (3 + 0) % 3),
     ("winner_system", 1 + (4 + 0) % 3),
     ("collision_system", 1 + (5 + 0) % 3),
     ("rendering_system", 0)] rfl
    ("input_system", 1 + (0 + 0) % 3) (by simp) (by decide)

end PongRs
